import Mathlib

/-!
# Account management page (src/app/cuentas/page.jsx)

A shallow embedding of the `UserManagement` component: the Yup validation
schema, the form controller it is wired to, and the functions of the component
(`fetchUsers`, `onSubmit`, `handleEdit`, `handleDelete`, `resetForm`) as
state transformers over the page state, the trace of HTTP requests issued and
the diagnostic console.

Strings are Lean strings; the JavaScript `length` of a string (UTF-16 code
units) is `jsLength`. A field of the form or of an account is a `Value`:
`undefined`, `null` or a string.
-/

namespace Cuentas

/-! ## Data model -/

/-- A field value as the page handles it: missing, null, or a string. -/
inductive Value where
  | undefined
  | null
  | str (s : String)
  deriving DecidableEq, Repr

/-- One element of `response.data.allAccounts`, with the attributes the page reads
(`id`, `name`, `lastname`, `email`, `role`, `state`) and the `password` attribute of the
remote record, which the page never reads. -/
structure Account where
  id : Value
  name : Value
  lastname : Value
  email : Value
  password : Value
  role : Value
  state : Value
  deriving DecidableEq, Repr

/-- The values of the seven registered inputs (`register(...)` in the JSX), which are also
the seven keys of `validationSchema`. -/
structure Draft where
  id : Value
  name : Value
  lastname : Value
  email : Value
  password : Value
  role : Value
  state : Value
  deriving DecidableEq, Repr

/-- The names of the registered inputs, as passed to `setValue`. -/
inductive Field where
  | id | name | lastname | email | password | role | state
  deriving DecidableEq, Repr

/-- The number of UTF-16 code units of a string: what `value.length` is in JavaScript. -/
def jsLength (s : String) : Nat :=
  (s.data.map fun c => if c.toNat < 65536 then 1 else 2).sum

/-! ## Yup string schemas

The Yup library is an external dependency; the part of it `validationSchema` uses is
embedded here: a string schema is its list of tests, in the order the builder calls add
them, and whether `nullable()` was called. -/

/-- Modelled from the spec: the tests of a Yup string schema that `validationSchema` uses
(the Yup library itself is not part of the repository); each carries the message given in
the source. -/
inductive StringTest where
  | min (limit : Nat) (message : String)
  | max (limit : Nat) (message : String)
  | email (message : String)
  | oneOf (values : List String) (message : String)
  deriving DecidableEq, Repr

/-- Modelled from the spec: a Yup string schema (the Yup library is not part of the
repository): its tests and whether null is admitted. -/
structure StringSchema where
  tests : List StringTest
  allowsNull : Bool
  deriving DecidableEq, Repr

/-- The schema `Yup.string()`: no test, null not admitted. -/
def Yup.string : StringSchema := { tests := [], allowsNull := false }

/-- The builder `.min(limit, message)`. -/
def StringSchema.min (s : StringSchema) (limit : Nat) (message : String) : StringSchema :=
  { s with tests := s.tests ++ [StringTest.min limit message] }

/-- The builder `.max(limit, message)`. -/
def StringSchema.max (s : StringSchema) (limit : Nat) (message : String) : StringSchema :=
  { s with tests := s.tests ++ [StringTest.max limit message] }

/-- The builder `.email(message)`. -/
def StringSchema.email (s : StringSchema) (message : String) : StringSchema :=
  { s with tests := s.tests ++ [StringTest.email message] }

/-- The builder `.oneOf(values, message)`. -/
def StringSchema.oneOf (s : StringSchema) (values : List String) (message : String) :
    StringSchema :=
  { s with tests := s.tests ++ [StringTest.oneOf values message] }

/-- The builder `.nullable()`. -/
def StringSchema.nullable (s : StringSchema) : StringSchema :=
  { s with allowsNull := true }

/-- What validation reports on one field: a type error (null where null is not admitted)
or the message of a failed test. -/
inductive Issue where
  | typeError
  | failed (message : String)
  deriving DecidableEq, Repr

/-- The message shown next to the input (`errors.name?.message`). -/
def Issue.message : Issue → Option String
  | Issue.typeError => none
  | Issue.failed m => some m

/-- Modelled from the spec: one Yup test run on a present string (the Yup library is not
part of the repository); `none` when the test passes, the test message when it fails.
`isEmail` stands for the email syntax Yup checks; the email test lets the empty string
pass. -/
def StringTest.run (isEmail : String → Bool) : StringTest → String → Option String
  | StringTest.min limit message, s => if limit ≤ jsLength s then none else some message
  | StringTest.max limit message, s => if jsLength s ≤ limit then none else some message
  | StringTest.email message, s => if s = "" ∨ isEmail s = true then none else some message
  | StringTest.oneOf values message, s => if s ∈ values then none else some message

/-- Modelled from the spec: validation of one field by a Yup string schema (the Yup
library is not part of the repository). An undefined value passes (no field is
`required()`), null passes when the schema is nullable, and a string is run through
every test, the failures kept in test order. -/
def StringSchema.validate (isEmail : String → Bool) (sch : StringSchema) : Value → List Issue
  | Value.undefined => []
  | Value.null => if sch.allowsNull then [] else [Issue.typeError]
  | Value.str s => sch.tests.filterMap fun t => (t.run isEmail s).map Issue.failed

/-- An object schema over the seven fields of the form (`Yup.object().shape({...})`). -/
structure ObjectSchema where
  id : StringSchema
  name : StringSchema
  lastname : StringSchema
  email : StringSchema
  password : StringSchema
  role : StringSchema
  state : StringSchema
  deriving DecidableEq, Repr

/-- The message of both length tests of `name`. -/
def nameMessage : String :=
  "El campo nombre es requerido y debe tener entre 3 y 25 caracteres"

/-- The message of both length tests of `lastname`. -/
def lastnameMessage : String :=
  "El campo apellido es requerido y debe tener entre 3 y 25 caracteres"

/-- The message of the email test. -/
def emailMessage : String :=
  "El campo email debe ser un email válido"

/-- The message of both length tests of `password`. -/
def passwordMessage : String :=
  "El campo contraseña es requerido y debe tener entre 8 y 30 caracteres alfanuméricos"

/-- The values `state` may take. -/
def stateValues : List String := ["ACTIVA", "BLOQUEADA", "INACTIVA"]

/-- The message of the `oneOf` test of `state`. -/
def stateMessage : String :=
  "El campo estado es requerido y debe ser uno de: \x27ACTIVA\x27, \x27BLOQUEADA\x27, \x27INACTIVA\x27"

/-- The schema of page.jsx, lines 17 to 25. -/
def validationSchema : ObjectSchema where
  id := Yup.string.nullable
  name := ((Yup.string.min 3 nameMessage).max 25 nameMessage).nullable
  lastname := ((Yup.string.min 3 lastnameMessage).max 25 lastnameMessage).nullable
  email := (Yup.string.email emailMessage).nullable
  password := ((Yup.string.min 8 passwordMessage).max 30 passwordMessage).nullable
  role := Yup.string.nullable
  state := (Yup.string.oneOf stateValues stateMessage).nullable

/-- The per-field errors of the form (`formState.errors`): for each field, the first
issue validation found, if any. -/
structure Errors where
  id : Option Issue
  name : Option Issue
  lastname : Option Issue
  email : Option Issue
  password : Option Issue
  role : Option Issue
  state : Option Issue
  deriving DecidableEq, Repr

/-- No field has an error. -/
def Errors.none : Errors :=
  { id := Option.none, name := Option.none, lastname := Option.none, email := Option.none,
    password := Option.none, role := Option.none, state := Option.none }

/-- Modelled from the spec: the resolver `yupResolver(schema)` (the resolver library is
not part of the repository): every field of the draft is validated by its schema and the
first issue of each field is reported. -/
def yupResolver (isEmail : String → Bool) (schema : ObjectSchema) (d : Draft) : Errors where
  id := (schema.id.validate isEmail d.id).head?
  name := (schema.name.validate isEmail d.name).head?
  lastname := (schema.lastname.validate isEmail d.lastname).head?
  email := (schema.email.validate isEmail d.email).head?
  password := (schema.password.validate isEmail d.password).head?
  role := (schema.role.validate isEmail d.role).head?
  state := (schema.state.validate isEmail d.state).head?

/-! ## Form controller

The form controller comes from `useForm(formOptions)`, a library call; its operations are
embedded as the specification of the page describes them. -/

/-- The draft in which no field has a value. `useForm` is given no default values, so
this is the draft the form starts with and the one `reset()` restores. -/
def Draft.empty : Draft :=
  { id := Value.undefined, name := Value.undefined, lastname := Value.undefined,
    email := Value.undefined, password := Value.undefined, role := Value.undefined,
    state := Value.undefined }

/-- The draft with one field replaced. -/
def Draft.set (d : Draft) : Field → Value → Draft
  | Field.id, v => { d with id := v }
  | Field.name, v => { d with name := v }
  | Field.lastname, v => { d with lastname := v }
  | Field.email, v => { d with email := v }
  | Field.password, v => { d with password := v }
  | Field.role, v => { d with role := v }
  | Field.state, v => { d with state := v }

/-- The managed form: the field values bound to the inputs and the per-field errors. -/
structure FormState where
  values : Draft
  errors : Errors
  deriving DecidableEq, Repr

/-- The form with every field and every error cleared. -/
def FormState.empty : FormState := { values := Draft.empty, errors := Errors.none }

/-! ## Page state, requests and handlers -/

/-- The state of the page: `users`, `selectedUser` (both `useState`) and the form. -/
structure State where
  users : List Account
  selectedUser : Option Account
  form : FormState
  deriving DecidableEq, Repr

/-- An HTTP request to the account service: `axios.get(API_URL/account)`,
`axios.put(API_URL/account/id, data)` and `axios.delete(API_URL/account/id)`. -/
inductive Request where
  | get
  | put (id : Value) (data : Draft)
  | delete (id : Value)
  deriving DecidableEq, Repr

/-- How the promise of a request settles: resolved, with the `allAccounts` of the
response body, or rejected. -/
inductive Response where
  | resolved (allAccounts : List Account)
  | rejected
  deriving DecidableEq, Repr

/-- The account service as the page sees it: the response to a request, given the
requests issued before it. Nothing is assumed about it. -/
abbrev Remote := List Request → Request → Response

/-- Everything a handler can change: the page state, the requests issued so far (oldest
first) and the messages written with `console.error`. -/
structure World where
  page : State
  requests : List Request
  console : List String
  deriving DecidableEq, Repr

/-- A handler: from a world to the next world, with either a value or a thrown
exception. The effects made before an exception is thrown are kept. -/
def Handler (α : Type) : Type := World → Except String α × World

/-- Return a value, changing nothing. -/
def Handler.pure {α : Type} (a : α) : Handler α := fun w => (Except.ok a, w)

/-- Sequencing: an exception thrown by the first part skips the second. -/
def Handler.bind {α β : Type} (m : Handler α) (f : α → Handler β) : Handler β := fun w =>
  match m w with
  | (Except.ok a, w1) => f a w1
  | (Except.error e, w1) => (Except.error e, w1)

instance : Monad Handler where
  pure := Handler.pure
  bind := Handler.bind

/-- The statement `try { body } catch (error) { handler }`. -/
def Handler.tryCatch {α : Type} (body : Handler α) (handler : String → Handler α) :
    Handler α := fun w =>
  match body w with
  | (Except.ok a, w1) => (Except.ok a, w1)
  | (Except.error e, w1) => handler e w1

/-- The world a handler leaves. -/
def Handler.exec {α : Type} (h : Handler α) (w : World) : World := (h w).2

/-- Whether an exception escapes the handler. -/
def Handler.throws {α : Type} (h : Handler α) (w : World) : Bool :=
  match (h w).1 with
  | Except.ok _ => false
  | Except.error _ => true

/-- Read `selectedUser`. -/
def readSelectedUser : Handler (Option Account) := fun w => (Except.ok w.page.selectedUser, w)

/-- Read the current field values of the form. -/
def readValues : Handler Draft := fun w => (Except.ok w.page.form.values, w)

/-- The state setter `setUsers`. -/
def setUsers (users : List Account) : Handler Unit := fun w =>
  (Except.ok (), { w with page := { w.page with users := users } })

/-- The state setter `setSelectedUser`. -/
def setSelectedUser (user : Option Account) : Handler Unit := fun w =>
  (Except.ok (), { w with page := { w.page with selectedUser := user } })

/-- The call `console.error(message, error)`; the message is recorded. -/
def consoleError (message : String) : Handler Unit := fun w =>
  (Except.ok (), { w with console := w.console ++ [message] })

/-- Modelled from the spec: `setValue(field, value)` of the form controller (the form
library is not part of the repository): sets the field and does not validate. -/
def setValue (field : Field) (value : Value) : Handler Unit := fun w =>
  (Except.ok (), { w with page := { w.page with form :=
    { w.page.form with values := w.page.form.values.set field value } } })

/-- Modelled from the spec: `reset()` of the form controller (the form library is not
part of the repository): clears all fields and all errors. -/
def reset : Handler Unit := fun w =>
  (Except.ok (), { w with page := { w.page with form := FormState.empty } })

/-- Modelled from the spec: the errors the form controller surfaces after it has run the
resolver (the form library is not part of the repository). -/
def setErrors (errors : Errors) : Handler Unit := fun w =>
  (Except.ok (), { w with page := { w.page with form := { w.page.form with errors := errors } } })

/-- A call of `axios`: the request is issued at once and the promise returned; how the
promise settles is what the account service answers. -/
def axios (remote : Remote) (req : Request) : Handler Response := fun w =>
  (Except.ok (remote w.requests req), { w with requests := w.requests ++ [req] })

/-- The expression `await promise`: the body of the response when the promise resolves,
an exception when it rejects. -/
def await (promise : Response) : Handler (List Account) :=
  match promise with
  | Response.resolved allAccounts => Handler.pure allAccounts
  | Response.rejected => fun w => (Except.error "AxiosError", w)

/-- The part of `fetchUsers` that runs once the promise of its GET request has settled:
`setUsers(response.data.allAccounts)`, or the catch block. -/
def fetchUsersPending (promise : Response) : Handler Unit :=
  Handler.tryCatch
    (do
      let allAccounts ← await promise
      setUsers allAccounts)
    (fun _ => consoleError "Error al obtener los usuarios")

/-- The function `fetchUsers` (lines 35 to 42). It is async and no caller awaits it: the
call issues the GET request and returns; the rest of its body, returned here as the
pending part, runs when the promise settles. The pending part catches its own
exception. -/
def fetchUsers (remote : Remote) : Handler (Handler Unit) := do
  let promise ← axios remote Request.get
  pure (fetchUsersPending promise)

/-- The effect `useEffect(() => { fetchUsers(); }, [])`, run when the page mounts. -/
def mount (remote : Remote) : Handler Unit := do
  let pending ← fetchUsers remote
  pending

/-- The function `resetForm` (lines 77 to 80), bound to the Cancelar button. -/
def resetForm : Handler Unit := do
  reset
  setSelectedUser none

/-- The function `onSubmit` (lines 44 to 56), run to completion: the try block, then the
pending part of the `fetchUsers()` call it did not await. -/
def onSubmit (remote : Remote) (data : Draft) : Handler Unit := do
  let pending ← Handler.tryCatch
    (do
      let selectedUser ← readSelectedUser
      match selectedUser with
      | some user =>
        let data := { data with id := user.id }
        let promise ← axios remote (Request.put user.id data)
        let _ ← await promise
      | none => pure ()
      let pending ← fetchUsers remote
      setSelectedUser none
      resetForm
      pure pending)
    (fun _ => do
      consoleError "Error al guardar el usuario"
      pure (pure ()))
  pending

/-- The function `handleEdit` (lines 58 to 66), bound to the Editar button of a row. -/
def handleEdit (user : Account) : Handler Unit := do
  setSelectedUser (some user)
  setValue Field.id user.id
  setValue Field.name user.name
  setValue Field.lastname user.lastname
  setValue Field.email user.email
  setValue Field.role user.role
  setValue Field.state user.state

/-- The function `handleDelete` (lines 68 to 75), bound to the Eliminar button of a row,
run to completion. -/
def handleDelete (remote : Remote) (id : Value) : Handler Unit := do
  let pending ← Handler.tryCatch
    (do
      let promise ← axios remote (Request.delete id)
      let _ ← await promise
      fetchUsers remote)
    (fun _ => do
      consoleError "Error al eliminar el usuario"
      pure (pure ()))
  pending

/-- Modelled from the spec: `handleSubmit(onValid)` of the form controller (the form
library is not part of the repository): runs the resolver on the current field values;
if any field fails, surfaces the errors without calling `onValid`; otherwise invokes
`onValid` with the current values. -/
def handleSubmit (resolver : Draft → Errors) (onValid : Draft → Handler Unit) :
    Handler Unit := do
  let values ← readValues
  let errors := resolver values
  setErrors errors
  if errors = Errors.none then onValid values else pure ()

/-- The submit event of the form: `handleSubmit(onSubmit)` with the resolver of
`formOptions` (line 27 and line 85). -/
def submitForm (isEmail : String → Bool) (remote : Remote) : Handler Unit :=
  handleSubmit (yupResolver isEmail validationSchema) (onSubmit remote)

/-- The operations of the page workflow. -/
inductive Op where
  | edit (user : Account)
  | submit (data : Draft)
  | cancel
  | delete (id : Value)
  deriving DecidableEq, Repr

/-- The handler an operation runs. -/
def Op.handler (remote : Remote) : Op → Handler Unit
  | Op.edit user => handleEdit user
  | Op.submit data => onSubmit remote data
  | Op.cancel => resetForm
  | Op.delete id => handleDelete remote id

/-- The world after a sequence of operations, each run to completion as one event. -/
def runOps (remote : Remote) : List Op → World → World
  | [], w => w
  | op :: ops, w => runOps remote ops ((op.handler remote).exec w)

/-- The world of a freshly rendered page, before the mount effect runs. -/
def World.initial : World :=
  { page := { users := [], selectedUser := none, form := FormState.empty },
    requests := [], console := [] }

/-! ## Concrete inputs used to evaluate the handlers -/

/-- An account as the service may return it. -/
def sampleAccount : Account :=
  { id := Value.str "7", name := Value.str "Ana", lastname := Value.str "Paz",
    email := Value.str "ana@example.com", password := Value.undefined,
    role := Value.str "admin", state := Value.str "ACTIVA" }

/-- A service that rejects every request. -/
def rejecting : Remote := fun _ _ => Response.rejected

/-- A service that resolves every request, with the given accounts as `allAccounts`. -/
def resolving (allAccounts : List Account) : Remote := fun _ _ => Response.resolved allAccounts

/-- The page after it listed the sample account and the operator pressed Editar on it. -/
def editingWorld : World :=
  (handleEdit sampleAccount).exec
    { World.initial with page := { World.initial.page with users := [sampleAccount] } }

/-- A draft the operator typed: a new name and a new password. -/
def typedDraft : Draft :=
  { Draft.empty with name := Value.str "Anabel", password := Value.str "clave-secreta" }

/-- The page with no selection and the typed draft in the form. -/
def typingWorld : World :=
  { World.initial with page := { World.initial.page with
      form := { values := typedDraft, errors := Errors.none } } }

/-- A stand-in for the email syntax check, used to evaluate the schema on examples: the
string contains an at sign. -/
def containsAt (s : String) : Bool := s.data.contains (Char.ofNat 64)

/-! ## Closed forms of the handlers -/

theorem fetchUsersPending_resolved (body : List Account) (w : World) :
    fetchUsersPending (Response.resolved body) w =
      (Except.ok (), { w with page := { w.page with users := body } }) := by
  simp [fetchUsersPending, Handler.tryCatch, bind, Handler.bind, await, Handler.pure, setUsers]

theorem fetchUsersPending_rejected (w : World) :
    fetchUsersPending Response.rejected w =
      (Except.ok (), { w with console := w.console ++ ["Error al obtener los usuarios"] }) := by
  simp [fetchUsersPending, Handler.tryCatch, bind, Handler.bind, await, consoleError]

theorem onSubmit_resolved_eq (remote : Remote) (w : World) (user : Account) (data : Draft)
    (body : List Account) (hsel : w.page.selectedUser = some user)
    (hput : remote w.requests (Request.put user.id { data with id := user.id })
      = Response.resolved body) :
    onSubmit remote data w =
      fetchUsersPending
        (remote (w.requests ++ [Request.put user.id { data with id := user.id }]) Request.get)
        { page := { users := w.page.users, selectedUser := none, form := FormState.empty },
          requests := w.requests ++ [Request.put user.id { data with id := user.id }, Request.get],
          console := w.console } := by
  simp [onSubmit, Handler.tryCatch, bind, Handler.bind, readSelectedUser, hsel, axios, hput,
    await, Handler.pure, fetchUsers, pure, setSelectedUser, resetForm, reset]

theorem onSubmit_rejected_eq (remote : Remote) (w : World) (user : Account) (data : Draft)
    (hsel : w.page.selectedUser = some user)
    (hput : remote w.requests (Request.put user.id { data with id := user.id })
      = Response.rejected) :
    onSubmit remote data w =
      (Except.ok (),
        { page := w.page,
          requests := w.requests ++ [Request.put user.id { data with id := user.id }],
          console := w.console ++ ["Error al guardar el usuario"] }) := by
  simp [onSubmit, Handler.tryCatch, bind, Handler.bind, readSelectedUser, hsel, axios, hput,
    await, Handler.pure, pure, consoleError]

theorem onSubmit_idle_eq (remote : Remote) (w : World) (data : Draft)
    (hsel : w.page.selectedUser = none) :
    onSubmit remote data w =
      fetchUsersPending (remote w.requests Request.get)
        { page := { users := w.page.users, selectedUser := none, form := FormState.empty },
          requests := w.requests ++ [Request.get],
          console := w.console } := by
  simp [onSubmit, Handler.tryCatch, bind, Handler.bind, readSelectedUser, hsel, axios,
    Handler.pure, fetchUsers, pure, setSelectedUser, resetForm, reset]

theorem handleDelete_resolved_eq (remote : Remote) (w : World) (id : Value)
    (body : List Account)
    (hdel : remote w.requests (Request.delete id) = Response.resolved body) :
    handleDelete remote id w =
      fetchUsersPending (remote (w.requests ++ [Request.delete id]) Request.get)
        { page := w.page,
          requests := w.requests ++ [Request.delete id, Request.get],
          console := w.console } := by
  simp [handleDelete, Handler.tryCatch, bind, Handler.bind, axios, hdel,
    await, Handler.pure, fetchUsers, pure]

theorem handleDelete_rejected_eq (remote : Remote) (w : World) (id : Value)
    (hdel : remote w.requests (Request.delete id) = Response.rejected) :
    handleDelete remote id w =
      (Except.ok (),
        { page := w.page,
          requests := w.requests ++ [Request.delete id],
          console := w.console ++ ["Error al eliminar el usuario"] }) := by
  simp [handleDelete, Handler.tryCatch, bind, Handler.bind, axios, hdel,
    await, Handler.pure, pure, consoleError]

theorem resetForm_eq (w : World) :
    resetForm w =
      (Except.ok (),
        { page := { users := w.page.users, selectedUser := none, form := FormState.empty },
          requests := w.requests, console := w.console }) := by
  simp [resetForm, bind, Handler.bind, reset, setSelectedUser]

theorem handleEdit_eq (user : Account) (w : World) :
    handleEdit user w =
      (Except.ok (),
        { page :=
            { users := w.page.users, selectedUser := some user,
              form :=
                { values :=
                    { id := user.id, name := user.name, lastname := user.lastname,
                      email := user.email, password := w.page.form.values.password,
                      role := user.role, state := user.state },
                  errors := w.page.form.errors } },
          requests := w.requests, console := w.console }) := by
  simp [handleEdit, bind, Handler.bind, setSelectedUser, setValue, Draft.set]


theorem fetchUsersPending_result (promise : Response) (w : World) :
    (fetchUsersPending promise w).1 = Except.ok () := by
  cases promise <;> simp [fetchUsersPending_resolved, fetchUsersPending_rejected]

theorem fetchUsersPending_requests (promise : Response) (w : World) :
    (fetchUsersPending promise w).2.requests = w.requests := by
  cases promise <;> simp [fetchUsersPending_resolved, fetchUsersPending_rejected]

theorem fetchUsersPending_selectedUser (promise : Response) (w : World) :
    (fetchUsersPending promise w).2.page.selectedUser = w.page.selectedUser := by
  cases promise <;> simp [fetchUsersPending_resolved, fetchUsersPending_rejected]

theorem fetchUsersPending_form (promise : Response) (w : World) :
    (fetchUsersPending promise w).2.page.form = w.page.form := by
  cases promise <;> simp [fetchUsersPending_resolved, fetchUsersPending_rejected]

/-! ## The claims -/

/-- C1: when a user is selected and the PUT request resolves, `onSubmit` issues exactly the
PUT request, addressed to the id of the selected user and carrying the data with its id
set to that id, then exactly one GET request, and ends with `selectedUser` null and the
form reset to empty; no exception escapes. -/
theorem onSubmit_update_then_list (remote : Remote) (w : World) (user : Account)
    (data : Draft) (body : List Account)
    (hsel : w.page.selectedUser = some user)
    (hput : remote w.requests (Request.put user.id { data with id := user.id })
      = Response.resolved body) :
    ((onSubmit remote data).exec w).requests
        = w.requests ++ [Request.put user.id { data with id := user.id }, Request.get]
      ∧ ((onSubmit remote data).exec w).page.selectedUser = none
      ∧ ((onSubmit remote data).exec w).page.form = FormState.empty
      ∧ (onSubmit remote data).throws w = false := by
  simp [Handler.exec, Handler.throws, onSubmit_resolved_eq remote w user data body hsel hput,
    fetchUsersPending_result, fetchUsersPending_requests, fetchUsersPending_selectedUser,
    fetchUsersPending_form]

/-- Witness of C1: the sample account is selected, the service resolves every request. -/
theorem onSubmit_update_then_list_witness :
    ((onSubmit (resolving [sampleAccount]) typedDraft).exec editingWorld).requests
        = [Request.put (Value.str "7") { typedDraft with id := Value.str "7" }, Request.get]
      ∧ ((onSubmit (resolving [sampleAccount]) typedDraft).exec editingWorld).page.selectedUser
        = none
      ∧ ((onSubmit (resolving [sampleAccount]) typedDraft).exec editingWorld).page.form
        = FormState.empty
      ∧ (onSubmit (resolving [sampleAccount]) typedDraft).throws editingWorld = false :=
  onSubmit_update_then_list (resolving [sampleAccount]) editingWorld sampleAccount typedDraft
    [sampleAccount] rfl rfl

/-- Counterexample to C2: the sample account is selected and the service rejects the PUT
request. `onSubmit` issues the PUT request only: no GET request follows, the selection
is still the sample account and the form still holds its values. -/
theorem onSubmit_failure_keeps_editing :
    editingWorld.page.selectedUser = some sampleAccount
      ∧ ((onSubmit rejecting typedDraft).exec editingWorld).requests
        = [Request.put (Value.str "7") { typedDraft with id := Value.str "7" }]
      ∧ Request.get ∉ ((onSubmit rejecting typedDraft).exec editingWorld).requests
      ∧ ((onSubmit rejecting typedDraft).exec editingWorld).page.selectedUser
        = some sampleAccount
      ∧ ((onSubmit rejecting typedDraft).exec editingWorld).page.form ≠ FormState.empty := by
  decide

/-- C2, amended: when a user is selected, `onSubmit` issues the PUT request. If it
resolves, one GET request follows and the page ends with `selectedUser` null and the form
reset. If it rejects, the failure is logged and nothing else happens: no GET request is
issued and the page state (users, selection, form) is as before. In both cases no
exception escapes. -/
theorem onSubmit_selected_outcomes (remote : Remote) (w : World) (user : Account)
    (data : Draft) (hsel : w.page.selectedUser = some user) :
    (∀ body, remote w.requests (Request.put user.id { data with id := user.id })
        = Response.resolved body →
      ((onSubmit remote data).exec w).requests
          = w.requests ++ [Request.put user.id { data with id := user.id }, Request.get]
        ∧ ((onSubmit remote data).exec w).page.selectedUser = none
        ∧ ((onSubmit remote data).exec w).page.form = FormState.empty)
      ∧ (remote w.requests (Request.put user.id { data with id := user.id })
          = Response.rejected →
        ((onSubmit remote data).exec w).requests
            = w.requests ++ [Request.put user.id { data with id := user.id }]
          ∧ ((onSubmit remote data).exec w).page = w.page
          ∧ ((onSubmit remote data).exec w).console
            = w.console ++ ["Error al guardar el usuario"])
      ∧ (onSubmit remote data).throws w = false := by
  refine ⟨?_, ?_, ?_⟩
  · intro body hput
    simp [Handler.exec, onSubmit_resolved_eq remote w user data body hsel hput,
      fetchUsersPending_requests, fetchUsersPending_selectedUser, fetchUsersPending_form]
  · intro hput
    simp [Handler.exec, onSubmit_rejected_eq remote w user data hsel hput]
  · cases hput : remote w.requests (Request.put user.id { data with id := user.id }) with
    | resolved body =>
      simp [Handler.throws, onSubmit_resolved_eq remote w user data body hsel hput,
        fetchUsersPending_result]
    | rejected =>
      simp [Handler.throws, onSubmit_rejected_eq remote w user data hsel hput]

/-- Witness of C2, amended: the rejecting service on the editing page. -/
theorem onSubmit_selected_outcomes_witness :
    editingWorld.page.selectedUser = some sampleAccount
      ∧ ((onSubmit rejecting typedDraft).exec editingWorld).page = editingWorld.page
      ∧ (onSubmit rejecting typedDraft).throws editingWorld = false :=
  ⟨rfl,
    ((onSubmit_selected_outcomes rejecting editingWorld sampleAccount typedDraft rfl).2.1 rfl).2.1,
    (onSubmit_selected_outcomes rejecting editingWorld sampleAccount typedDraft rfl).2.2⟩

/-- Counterexample to C3: the service rejects the DELETE request. `handleDelete` issues
the DELETE request only; no GET request follows. -/
theorem handleDelete_failure_no_refetch :
    ((handleDelete rejecting (Value.str "7")).exec editingWorld).requests
        = [Request.delete (Value.str "7")]
      ∧ Request.get ∉ ((handleDelete rejecting (Value.str "7")).exec editingWorld).requests := by
  decide

/-- C3, amended: `handleDelete` issues one DELETE request for the id. If it resolves, one
GET request follows, and `users` becomes the fetched list when that resolves and stays as
it was when it rejects. If the DELETE request rejects, the failure is logged, no GET
request is issued and the page state is as before. In every case the selection and the
form are untouched and no exception escapes. -/
theorem handleDelete_outcomes (remote : Remote) (w : World) (id : Value) :
    (∀ body, remote w.requests (Request.delete id) = Response.resolved body →
      ((handleDelete remote id).exec w).requests
          = w.requests ++ [Request.delete id, Request.get]
        ∧ (∀ fetched, remote (w.requests ++ [Request.delete id]) Request.get
            = Response.resolved fetched →
          ((handleDelete remote id).exec w).page.users = fetched)
        ∧ (remote (w.requests ++ [Request.delete id]) Request.get = Response.rejected →
          ((handleDelete remote id).exec w).page.users = w.page.users))
      ∧ (remote w.requests (Request.delete id) = Response.rejected →
        ((handleDelete remote id).exec w).requests = w.requests ++ [Request.delete id]
          ∧ ((handleDelete remote id).exec w).page = w.page
          ∧ ((handleDelete remote id).exec w).console
            = w.console ++ ["Error al eliminar el usuario"])
      ∧ ((handleDelete remote id).exec w).page.selectedUser = w.page.selectedUser
      ∧ ((handleDelete remote id).exec w).page.form = w.page.form
      ∧ (handleDelete remote id).throws w = false := by
  cases hdel : remote w.requests (Request.delete id) with
  | resolved body =>
    refine ⟨?_, ?_, ?_, ?_, ?_⟩
    · intro body2 _
      refine ⟨?_, ?_, ?_⟩
      · simp [Handler.exec, handleDelete_resolved_eq remote w id body hdel,
          fetchUsersPending_requests]
      · intro fetched hget
        simp [Handler.exec, handleDelete_resolved_eq remote w id body hdel, hget,
          fetchUsersPending_resolved]
      · intro hget
        simp [Handler.exec, handleDelete_resolved_eq remote w id body hdel, hget,
          fetchUsersPending_rejected]
    · intro h
      cases h
    · simp [Handler.exec, handleDelete_resolved_eq remote w id body hdel,
        fetchUsersPending_selectedUser]
    · simp [Handler.exec, handleDelete_resolved_eq remote w id body hdel,
        fetchUsersPending_form]
    · simp [Handler.throws, handleDelete_resolved_eq remote w id body hdel,
        fetchUsersPending_result]
  | rejected =>
    refine ⟨?_, ?_, ?_, ?_, ?_⟩
    · intro body h
      cases h
    · intro _
      simp [Handler.exec, handleDelete_rejected_eq remote w id hdel]
    · simp [Handler.exec, handleDelete_rejected_eq remote w id hdel]
    · simp [Handler.exec, handleDelete_rejected_eq remote w id hdel]
    · simp [Handler.throws, handleDelete_rejected_eq remote w id hdel]

/-- Witness of C3, amended: the DELETE request resolves and the list is fetched again;
the DELETE request rejects and the page is as before. -/
theorem handleDelete_outcomes_witness :
    ((handleDelete (resolving []) (Value.str "7")).exec editingWorld).requests
        = [Request.delete (Value.str "7"), Request.get]
      ∧ ((handleDelete (resolving []) (Value.str "7")).exec editingWorld).page.users = []
      ∧ ((handleDelete rejecting (Value.str "7")).exec editingWorld).page = editingWorld.page :=
  ⟨((handleDelete_outcomes (resolving []) editingWorld (Value.str "7")).1 [] rfl).1,
    ((handleDelete_outcomes (resolving []) editingWorld (Value.str "7")).1 [] rfl).2.1 [] rfl,
    ((handleDelete_outcomes rejecting editingWorld (Value.str "7")).2.1 rfl).2.1⟩

/-- Counterexample to C5: the form holds a typed password when Editar is pressed on the
sample account. After `handleEdit` the password of the form is still the typed one: it
is neither missing, nor null, nor the empty string. -/
theorem handleEdit_keeps_typed_password :
    typingWorld.page.form.values.password = Value.str "clave-secreta"
      ∧ ((handleEdit sampleAccount).exec typingWorld).page.form.values.password
        = Value.str "clave-secreta"
      ∧ ((handleEdit sampleAccount).exec typingWorld).page.form.values.password
        ≠ Value.undefined
      ∧ ((handleEdit sampleAccount).exec typingWorld).page.form.values.password
        ≠ Value.null
      ∧ ((handleEdit sampleAccount).exec typingWorld).page.form.values.password
        ≠ Value.str "" := by
  decide

/-- C5, amended: after `handleEdit user` the selection is that user and the form reads
id, name, lastname, email, role and state of the user, while its password is the one the
form held before (so it is empty exactly when it was empty before); the account password
is never copied. The errors of the form, `users`, the requests and the console are
untouched and no exception escapes. -/
theorem handleEdit_seeds_form (user : Account) (w : World) :
    ((handleEdit user).exec w).page.selectedUser = some user
      ∧ ((handleEdit user).exec w).page.form.values
        = { id := user.id, name := user.name, lastname := user.lastname,
            email := user.email, password := w.page.form.values.password,
            role := user.role, state := user.state }
      ∧ ((handleEdit user).exec w).page.form.errors = w.page.form.errors
      ∧ ((handleEdit user).exec w).page.users = w.page.users
      ∧ ((handleEdit user).exec w).requests = w.requests
      ∧ ((handleEdit user).exec w).console = w.console
      ∧ (handleEdit user).throws w = false := by
  simp [Handler.exec, Handler.throws, handleEdit_eq]

/-- Counterexample to C9: no user is selected and the form holds a typed draft. `onSubmit`
issues a GET request, replaces `users` by the fetched list and resets the form. -/
theorem onSubmit_idle_not_inert :
    typingWorld.page.selectedUser = none
      ∧ ((onSubmit (resolving [sampleAccount]) typedDraft).exec typingWorld).requests
        = [Request.get]
      ∧ ((onSubmit (resolving [sampleAccount]) typedDraft).exec typingWorld).page.users
        ≠ typingWorld.page.users
      ∧ ((onSubmit (resolving [sampleAccount]) typedDraft).exec typingWorld).page.form
        ≠ typingWorld.page.form := by
  decide

/-- C9, amended: when no user is selected, `onSubmit` issues no PUT request; it issues
exactly one GET request, sets `users` to the fetched list when that request resolves and
leaves `users` as it was when it rejects, leaves `selectedUser` null and resets the form
to empty. No exception escapes. -/
theorem onSubmit_idle_refetches (remote : Remote) (w : World) (data : Draft)
    (hsel : w.page.selectedUser = none) :
    ((onSubmit remote data).exec w).requests = w.requests ++ [Request.get]
      ∧ (∀ fetched, remote w.requests Request.get = Response.resolved fetched →
        ((onSubmit remote data).exec w).page.users = fetched)
      ∧ (remote w.requests Request.get = Response.rejected →
        ((onSubmit remote data).exec w).page.users = w.page.users)
      ∧ ((onSubmit remote data).exec w).page.selectedUser = none
      ∧ ((onSubmit remote data).exec w).page.form = FormState.empty
      ∧ (onSubmit remote data).throws w = false := by
  refine ⟨?_, ?_, ?_, ?_, ?_, ?_⟩
  · simp [Handler.exec, onSubmit_idle_eq remote w data hsel, fetchUsersPending_requests]
  · intro fetched hget
    simp [Handler.exec, onSubmit_idle_eq remote w data hsel, hget, fetchUsersPending_resolved]
  · intro hget
    simp [Handler.exec, onSubmit_idle_eq remote w data hsel, hget, fetchUsersPending_rejected]
  · simp [Handler.exec, onSubmit_idle_eq remote w data hsel, fetchUsersPending_selectedUser]
  · simp [Handler.exec, onSubmit_idle_eq remote w data hsel, fetchUsersPending_form]
  · simp [Handler.throws, onSubmit_idle_eq remote w data hsel, fetchUsersPending_result]

/-- Witness of C9, amended: the typing page, with a service that resolves. -/
theorem onSubmit_idle_refetches_witness :
    typingWorld.page.selectedUser = none
      ∧ ((onSubmit (resolving [sampleAccount]) typedDraft).exec typingWorld).requests
        = typingWorld.requests ++ [Request.get]
      ∧ ((onSubmit (resolving [sampleAccount]) typedDraft).exec typingWorld).page.users
        = [sampleAccount] :=
  ⟨rfl, (onSubmit_idle_refetches (resolving [sampleAccount]) typingWorld typedDraft rfl).1,
    (onSubmit_idle_refetches (resolving [sampleAccount]) typingWorld typedDraft rfl).2.1
      [sampleAccount] rfl⟩

/-- C10: `resetForm` issues no request, writes nothing to the console and throws nothing;
it is idempotent on every world; on a world with no selection and an empty form it
changes nothing, once or twice in a row; and on a world with no selection whose field
values are empty it leaves `users`, the selection and the field values as they were,
whatever errors the form showed. -/
theorem resetForm_idempotent (w : World) :
    (resetForm.exec w).requests = w.requests
      ∧ (resetForm.exec w).console = w.console
      ∧ resetForm.throws w = false
      ∧ resetForm.exec (resetForm.exec w) = resetForm.exec w
      ∧ (w.page.selectedUser = none → w.page.form = FormState.empty →
        resetForm.exec w = w ∧ resetForm.exec (resetForm.exec w) = w)
      ∧ (w.page.selectedUser = none → w.page.form.values = Draft.empty →
        (resetForm.exec w).page.users = w.page.users
          ∧ (resetForm.exec w).page.selectedUser = w.page.selectedUser
          ∧ (resetForm.exec w).page.form.values = w.page.form.values) := by
  refine ⟨?_, ?_, ?_, ?_, ?_, ?_⟩
  · simp [Handler.exec, resetForm_eq]
  · simp [Handler.exec, resetForm_eq]
  · simp [Handler.throws, resetForm_eq]
  · simp [Handler.exec, resetForm_eq]
  · intro hsel hform
    obtain ⟨⟨users, selectedUser, form⟩, requests, console⟩ := w
    simp only at hsel hform
    subst hsel hform
    simp [Handler.exec, resetForm_eq]
  · intro hsel hvalues
    simp [Handler.exec, resetForm_eq, hsel, hvalues, FormState.empty]

/-- Witness of C10: two cancels on the freshly rendered page change nothing. -/
theorem resetForm_idempotent_witness :
    World.initial.page.selectedUser = none ∧ World.initial.page.form = FormState.empty
      ∧ resetForm.exec World.initial = World.initial
      ∧ resetForm.exec (resetForm.exec World.initial) = World.initial :=
  ⟨rfl, rfl, (resetForm_idempotent World.initial).2.2.2.2.1 rfl rfl⟩


/-! ## Validation of single fields -/

theorem validate_untested (isEmail : String → Bool) (v : Value) :
    Yup.string.nullable.validate isEmail v = [] := by
  cases v <;> simp [StringSchema.validate, StringSchema.nullable, Yup.string]

theorem validate_length_ok (isEmail : String → Bool) (lo hi : Nat) (message : String)
    (v : Value)
    (h : v = Value.undefined ∨ v = Value.null
      ∨ ∃ s, v = Value.str s ∧ lo ≤ jsLength s ∧ jsLength s ≤ hi) :
    ((Yup.string.min lo message).max hi message).nullable.validate isEmail v = [] := by
  rcases h with h | h | ⟨s, h, h1, h2⟩ <;> subst h <;>
    simp [StringSchema.validate, StringSchema.nullable, StringSchema.min, StringSchema.max,
      Yup.string, StringTest.run, *]

theorem validate_length_bad (isEmail : String → Bool) (lo hi : Nat) (message : String)
    (s : String) (hlohi : lo ≤ hi) (h : jsLength s < lo ∨ hi < jsLength s) :
    (((Yup.string.min lo message).max hi message).nullable.validate isEmail
      (Value.str s)).head? = some (Issue.failed message) := by
  rcases h with h | h
  · have h1 : ¬ lo ≤ jsLength s := by omega
    simp [StringSchema.validate, StringSchema.nullable, StringSchema.min, StringSchema.max,
      Yup.string, StringTest.run, h1]
  · have h1 : lo ≤ jsLength s := by omega
    have h2 : ¬ jsLength s ≤ hi := by omega
    simp [StringSchema.validate, StringSchema.nullable, StringSchema.min, StringSchema.max,
      Yup.string, StringTest.run, h1, h2]

theorem validate_email_ok (isEmail : String → Bool) (v : Value)
    (h : v = Value.undefined ∨ v = Value.null ∨ ∃ s, v = Value.str s ∧ isEmail s = true) :
    (Yup.string.email emailMessage).nullable.validate isEmail v = [] := by
  rcases h with h | h | ⟨s, h, h1⟩ <;> subst h <;>
    simp [StringSchema.validate, StringSchema.nullable, StringSchema.email,
      Yup.string, StringTest.run, *]

theorem validate_state_ok (isEmail : String → Bool) (v : Value)
    (h : v = Value.undefined ∨ v = Value.null
      ∨ ∃ s, v = Value.str s ∧ (s = "ACTIVA" ∨ s = "BLOQUEADA" ∨ s = "INACTIVA")) :
    (Yup.string.oneOf stateValues stateMessage).nullable.validate isEmail v = [] := by
  rcases h with h | h | ⟨s, h, h1⟩ <;> subst h <;>
    simp [StringSchema.validate, StringSchema.nullable, StringSchema.oneOf,
      Yup.string, StringTest.run, stateValues, *]

/-- Counterexample to C6: a draft whose only field is state = ACTIVE, one of the three
values the claim lists. The schema reports the state error: the values it admits are
ACTIVA, BLOQUEADA and INACTIVA. -/
theorem validationSchema_rejects_ACTIVE :
    "ACTIVE" ∈ ["ACTIVE", "BLOCKED", "INACTIVE"]
      ∧ (yupResolver containsAt validationSchema
        { Draft.empty with state := Value.str "ACTIVE" }).state
      = some (Issue.failed stateMessage)
      ∧ yupResolver containsAt validationSchema
        { Draft.empty with state := Value.str "ACTIVE" } ≠ Errors.none := by
  decide

/-- C6, amended: if each of name and lastname is absent (undefined or null) or a string of
length 3 to 25, email is absent or a string with valid email syntax, password is absent
or a string of length 8 to 30, and state is absent or one of ACTIVA, BLOQUEADA, INACTIVA
(id and role being anything), then the schema reports no error for any field. -/
theorem validationSchema_accepts (isEmail : String → Bool) (d : Draft)
    (hname : d.name = Value.undefined ∨ d.name = Value.null
      ∨ ∃ s, d.name = Value.str s ∧ 3 ≤ jsLength s ∧ jsLength s ≤ 25)
    (hlastname : d.lastname = Value.undefined ∨ d.lastname = Value.null
      ∨ ∃ s, d.lastname = Value.str s ∧ 3 ≤ jsLength s ∧ jsLength s ≤ 25)
    (hemail : d.email = Value.undefined ∨ d.email = Value.null
      ∨ ∃ s, d.email = Value.str s ∧ isEmail s = true)
    (hpassword : d.password = Value.undefined ∨ d.password = Value.null
      ∨ ∃ s, d.password = Value.str s ∧ 8 ≤ jsLength s ∧ jsLength s ≤ 30)
    (hstate : d.state = Value.undefined ∨ d.state = Value.null
      ∨ ∃ s, d.state = Value.str s ∧ (s = "ACTIVA" ∨ s = "BLOQUEADA" ∨ s = "INACTIVA")) :
    yupResolver isEmail validationSchema d = Errors.none := by
  have hid := validate_untested isEmail d.id
  have hrole := validate_untested isEmail d.role
  have h1 := validate_length_ok isEmail 3 25 nameMessage d.name hname
  have h2 := validate_length_ok isEmail 3 25 lastnameMessage d.lastname hlastname
  have h3 := validate_length_ok isEmail 8 30 passwordMessage d.password hpassword
  have h4 := validate_email_ok isEmail d.email hemail
  have h5 := validate_state_ok isEmail d.state hstate
  simp only [yupResolver, validationSchema, Errors.none, hid, hrole, h1, h2, h3, h4, h5,
    List.head?_nil]

/-- Witness of C6, amended: a fully filled, valid draft. -/
theorem validationSchema_accepts_witness :
    yupResolver containsAt validationSchema
        { id := Value.str "7", name := Value.str "Ana", lastname := Value.null,
          email := Value.str "ana@example.com", password := Value.str "12345678",
          role := Value.str "admin", state := Value.str "BLOQUEADA" }
      = Errors.none :=
  validationSchema_accepts containsAt _
    (Or.inr (Or.inr ⟨"Ana", rfl, by decide, by decide⟩))
    (Or.inr (Or.inl rfl))
    (Or.inr (Or.inr ⟨"ana@example.com", rfl, by decide⟩))
    (Or.inr (Or.inr ⟨"12345678", rfl, by decide, by decide⟩))
    (Or.inr (Or.inr ⟨"BLOQUEADA", rfl, Or.inr (Or.inl rfl)⟩))

/-- Counterexample to C7: state = ACTIVA is present and is none of ACTIVE, BLOCKED,
INACTIVE, yet the schema reports no error on state. -/
theorem validationSchema_accepts_ACTIVA :
    ("ACTIVA" ≠ "ACTIVE" ∧ "ACTIVA" ≠ "BLOCKED" ∧ "ACTIVA" ≠ "INACTIVE")
      ∧ (yupResolver containsAt validationSchema
        { Draft.empty with state := Value.str "ACTIVA" }).state = none := by
  decide

/-- C7, amended: a name or lastname that is a string of length below 3 or above 25 gets
the error of that field, whose message contains the words entre 3 y 25; a password that
is a string of length below 8 or above 30 gets the password error, whose message
contains entre 8 y 30; a state that is a string other than ACTIVA, BLOQUEADA and INACTIVA
gets the state error, whose message lists these three values. -/
theorem validationSchema_rejects (isEmail : String → Bool) (d : Draft) :
    (∀ s, d.name = Value.str s → (jsLength s < 3 ∨ 25 < jsLength s) →
        (yupResolver isEmail validationSchema d).name = some (Issue.failed nameMessage))
      ∧ (∀ s, d.lastname = Value.str s → (jsLength s < 3 ∨ 25 < jsLength s) →
        (yupResolver isEmail validationSchema d).lastname
          = some (Issue.failed lastnameMessage))
      ∧ (∀ s, d.password = Value.str s → (jsLength s < 8 ∨ 30 < jsLength s) →
        (yupResolver isEmail validationSchema d).password
          = some (Issue.failed passwordMessage))
      ∧ (∀ s, d.state = Value.str s → s ≠ "ACTIVA" → s ≠ "BLOQUEADA" → s ≠ "INACTIVA" →
        (yupResolver isEmail validationSchema d).state = some (Issue.failed stateMessage))
      ∧ "entre 3 y 25".data <:+: nameMessage.data
      ∧ "entre 3 y 25".data <:+: lastnameMessage.data
      ∧ "entre 8 y 30".data <:+: passwordMessage.data
      ∧ "\x27ACTIVA\x27, \x27BLOQUEADA\x27, \x27INACTIVA\x27".data <:+: stateMessage.data := by
  refine ⟨?_, ?_, ?_, ?_, by decide, by decide, by decide, by decide⟩
  · intro s hs hlen
    simp only [yupResolver, validationSchema, hs]
    exact validate_length_bad isEmail 3 25 nameMessage s (by decide) hlen
  · intro s hs hlen
    simp only [yupResolver, validationSchema, hs]
    exact validate_length_bad isEmail 3 25 lastnameMessage s (by decide) hlen
  · intro s hs hlen
    simp only [yupResolver, validationSchema, hs]
    exact validate_length_bad isEmail 8 30 passwordMessage s (by decide) hlen
  · intro s hs h1 h2 h3
    simp only [yupResolver, validationSchema, hs]
    simp [StringSchema.validate, StringSchema.nullable, StringSchema.oneOf, Yup.string,
      StringTest.run, stateValues, h1, h2, h3]

/-- Witness of C7, amended: name = ab and state = DELETED. -/
theorem validationSchema_rejects_witness :
    (yupResolver containsAt validationSchema
        { Draft.empty with name := Value.str "ab", state := Value.str "DELETED" }).name
      = some (Issue.failed nameMessage)
      ∧ (yupResolver containsAt validationSchema
        { Draft.empty with name := Value.str "ab", state := Value.str "DELETED" }).state
      = some (Issue.failed stateMessage) :=
  ⟨(validationSchema_rejects containsAt
      { Draft.empty with name := Value.str "ab", state := Value.str "DELETED" }).1
      "ab" rfl (Or.inl (by decide)),
    (validationSchema_rejects containsAt
      { Draft.empty with name := Value.str "ab", state := Value.str "DELETED" }).2.2.2.1
      "DELETED" rfl (by decide) (by decide) (by decide)⟩

/-- C4: when the resolver reports an error on at least one field of the current draft,
submitting the form does not run `onSubmit`: no request is issued, and `users`, the
selection and the field values are unchanged (the errors of the form become the ones
reported); when it reports no error, `onSubmit` is run with the current field values. -/
theorem submitForm_gate (isEmail : String → Bool) (remote : Remote) (w : World) :
    (yupResolver isEmail validationSchema w.page.form.values ≠ Errors.none →
      ((submitForm isEmail remote).exec w).requests = w.requests
        ∧ ((submitForm isEmail remote).exec w).page.users = w.page.users
        ∧ ((submitForm isEmail remote).exec w).page.selectedUser = w.page.selectedUser
        ∧ ((submitForm isEmail remote).exec w).page.form.values = w.page.form.values
        ∧ ((submitForm isEmail remote).exec w).page.form.errors
          = yupResolver isEmail validationSchema w.page.form.values
        ∧ ((submitForm isEmail remote).exec w).console = w.console
        ∧ (submitForm isEmail remote).throws w = false)
      ∧ (yupResolver isEmail validationSchema w.page.form.values = Errors.none →
        submitForm isEmail remote w
          = onSubmit remote w.page.form.values ((setErrors Errors.none).exec w)) := by
  refine ⟨?_, ?_⟩
  · intro h
    simp [submitForm, handleSubmit, Handler.exec, Handler.throws, bind, Handler.bind,
      readValues, setErrors, h, pure, Handler.pure]
  · intro h
    simp [submitForm, handleSubmit, Handler.exec, bind, Handler.bind, readValues, setErrors, h]

/-- Witness of C4: a form whose name is ab is not submitted; the typed draft, which is
valid, is handed to `onSubmit`. -/
theorem submitForm_gate_witness :
    ((submitForm containsAt (resolving [])).exec
        { typingWorld with page := { typingWorld.page with
            form := { values := { typedDraft with name := Value.str "ab" },
                      errors := Errors.none } } }).requests = []
      ∧ submitForm containsAt (resolving []) typingWorld
        = onSubmit (resolving []) typedDraft ((setErrors Errors.none).exec typingWorld) :=
  ⟨((submitForm_gate containsAt (resolving [])
      { typingWorld with page := { typingWorld.page with
          form := { values := { typedDraft with name := Value.str "ab" },
                    errors := Errors.none } } }).1 (by decide)).1,
    (submitForm_gate containsAt (resolving []) typingWorld).2 (by decide)⟩

/-- Counterexample to C8: Editar on the sample account, then Eliminar on the same account,
with a service that resolves every request and no longer lists the account. The DELETE
request for its id resolved, yet the selection still is the deleted account. -/
theorem handleDelete_keeps_selection :
    (runOps (resolving []) [Op.edit sampleAccount, Op.delete sampleAccount.id]
        World.initial).requests = [Request.delete sampleAccount.id, Request.get]
      ∧ (runOps (resolving []) [Op.edit sampleAccount, Op.delete sampleAccount.id]
        World.initial).page.users = []
      ∧ (runOps (resolving []) [Op.edit sampleAccount, Op.delete sampleAccount.id]
        World.initial).page.selectedUser = some sampleAccount := by
  decide

/-- C8, amended: in the world reached by any sequence of Edit, Submit, Cancel and Delete
operations, the selection is null after a save whose update request, if one is issued,
succeeds, and after Cancel; Delete, successful or not, leaves the selection as it was,
also when the id is that of the selected account. -/
theorem selection_after_operations (remote : Remote) (ops : List Op) (w0 : World) :
    (∀ data, (∀ user, (runOps remote ops w0).page.selectedUser = some user →
          ∃ body, remote (runOps remote ops w0).requests
            (Request.put user.id { data with id := user.id }) = Response.resolved body) →
        ((onSubmit remote data).exec (runOps remote ops w0)).page.selectedUser = none)
      ∧ (resetForm.exec (runOps remote ops w0)).page.selectedUser = none
      ∧ (∀ id, ((handleDelete remote id).exec (runOps remote ops w0)).page.selectedUser
        = (runOps remote ops w0).page.selectedUser) := by
  generalize runOps remote ops w0 = w
  refine ⟨?_, ?_, ?_⟩
  · intro data h
    cases hsel : w.page.selectedUser with
    | none =>
      simp [Handler.exec, onSubmit_idle_eq remote w data hsel, fetchUsersPending_selectedUser]
    | some user =>
      obtain ⟨body, hput⟩ := h user hsel
      simp [Handler.exec, onSubmit_resolved_eq remote w user data body hsel hput,
        fetchUsersPending_selectedUser]
  · simp [Handler.exec, resetForm_eq]
  · intro id
    cases hdel : remote w.requests (Request.delete id) with
    | resolved body =>
      simp [Handler.exec, handleDelete_resolved_eq remote w id body hdel,
        fetchUsersPending_selectedUser]
    | rejected =>
      simp [Handler.exec, handleDelete_rejected_eq remote w id hdel]

/-- Witness of C8, amended: after Editar on the sample account, a save that succeeds
clears the selection. -/
theorem selection_after_operations_witness :
    (runOps (resolving []) [Op.edit sampleAccount] World.initial).page.selectedUser
        = some sampleAccount
      ∧ ((onSubmit (resolving []) typedDraft).exec
        (runOps (resolving []) [Op.edit sampleAccount] World.initial)).page.selectedUser
        = none :=
  ⟨rfl, (selection_after_operations (resolving []) [Op.edit sampleAccount] World.initial).1
    typedDraft (fun _ _ => ⟨[], rfl⟩)⟩
end Cuentas
